import Mathlib

/-!
# Verification of the scorecard chat client (src/app.py)

Shallow embedding of the conversation-synchronization core of the Streamlit
scorecard app: the WebSocket receive loop (`send_websocket_message`), the
history fetch (`load_chat_history`), the reply reconciliation applied in
`chat_page`, and the page-level state transitions (`modal_page`, the Back
button, and the send flow).

Python session state is modelled as an explicit record `AppState`; network
results are passed in as explicit parameters, making every operation a pure
function.  Python string truthiness is modelled as inequality with the empty
string, dict truthiness of a decoded JSON object as presence of at least one
key, and `dict.get` as `Option`.
-/

namespace ScorecardApp

/-! ## Python string primitives

`pyLower` models `str.lower` (ASCII case mapping) and `pyStrip` models
`str.strip()` (removal of leading and trailing whitespace), both restricted
to ASCII, which covers every string the claims mention. -/

/-- ASCII whitespace, as stripped by Python `str.strip()`. -/
def isSpaceChar (c : Char) : Bool :=
  c.toNat = 32 || (9 ≤ c.toNat && c.toNat ≤ 13)

/-- ASCII lower-casing of one character, as done by Python `str.lower`. -/
def lowerChar (c : Char) : Char :=
  if 65 ≤ c.toNat ∧ c.toNat ≤ 90 then Char.ofNat (c.toNat + 32) else c

/-- Remove leading and trailing whitespace from a character list. -/
def stripList (l : List Char) : List Char :=
  ((l.dropWhile isSpaceChar).reverse.dropWhile isSpaceChar).reverse

/-- Model of Python `s.strip()`. -/
def pyStrip (s : String) : String :=
  String.mk (stripList s.data)

/-- Model of Python `s.lower()`. -/
def pyLower (s : String) : String :=
  String.mk (s.data.map lowerChar)

theorem lowerChar_isSpaceChar (c : Char) : isSpaceChar (lowerChar c) = isSpaceChar c := by
  unfold lowerChar
  split
  · next h =>
    have hval : (Char.ofNat (c.toNat + 32)).toNat = c.toNat + 32 := by
      have hvalid : (c.toNat + 32).isValidChar := Or.inl (by omega)
      unfold Char.ofNat
      rw [dif_pos hvalid]
      rfl
    unfold isSpaceChar
    rw [hval]
    have h1 : ¬ (c.toNat + 32 = 32 || (9 ≤ c.toNat + 32 && c.toNat + 32 ≤ 13)) = true := by
      simp only [Bool.or_eq_true, decide_eq_true_eq, Bool.and_eq_true]
      omega
    have h2 : ¬ (c.toNat = 32 || (9 ≤ c.toNat && c.toNat ≤ 13)) = true := by
      simp only [Bool.or_eq_true, decide_eq_true_eq, Bool.and_eq_true]
      omega
    simp only [Bool.not_eq_true] at h1 h2
    rw [h1, h2]
  · rfl

theorem stripList_map_lowerChar (l : List Char) :
    stripList (l.map lowerChar) = (stripList l).map lowerChar := by
  have hcomp : isSpaceChar ∘ lowerChar = isSpaceChar := by
    funext c; exact lowerChar_isSpaceChar c
  unfold stripList
  rw [List.dropWhile_map, hcomp, ← List.map_reverse, List.dropWhile_map, hcomp,
    ← List.map_reverse]

/-- Trimming and lower-casing commute, so "trimmed then lower-cased" (the
spec's phrasing) and "lower-cased then trimmed" (the code's order) agree. -/
theorem pyStrip_pyLower_comm (s : String) :
    pyStrip (pyLower s) = pyLower (pyStrip s) := by
  unfold pyStrip pyLower
  simp only [String.data]
  exact congrArg String.mk (stripList_map_lowerChar s.data)

/-! ## Data model

The mutable Streamlit session state (`st.session_state`) is the record
`AppState`; inbound decoded JSON frames are `Reply`/`ReplyData`. -/

/-- One scorecard section is a JSON object: a string-keyed field map. -/
abbrev SectionVal := List (String × String)

/-- One chat message, `{'role': ..., 'content': ...}`. -/
structure Msg where
  role : String
  content : String
deriving DecidableEq, Repr

/-- The scorecard draft (`st.session_state.scorecard_state`): a dict whose
keys range over the seven fixed section names; `none` models an absent key. -/
structure Scorecard where
  situation : Option SectionVal
  mission : Option SectionVal
  outcomes : Option SectionVal
  competencies : Option SectionVal
  culture : Option SectionVal
  boss_style : Option SectionVal
  requirements : Option SectionVal
deriving DecidableEq, Repr

/-- The empty draft `{}`. -/
def emptyScorecard : Scorecard :=
  ⟨none, none, none, none, none, none, none⟩

/-- The `data` object of a new-format inbound frame.  Each field models
`data.get(key)`: `none` when the key is absent. -/
structure ReplyData where
  content : Option String
  thread_id : Option String
  situation : Option SectionVal
  mission : Option SectionVal
  outcomes : Option SectionVal
  competencies : Option SectionVal
  culture : Option SectionVal
  boss_style : Option SectionVal
  requirements : Option SectionVal
deriving DecidableEq, Repr

/-- The empty `data` object. -/
def emptyReplyData : ReplyData :=
  ⟨none, none, none, none, none, none, none, none, none⟩

/-- A decoded inbound JSON object.  `rtype` models `response.get('type')`,
`data` models the `'data'` entry, `content` the top-level legacy `'content'`
entry.  `others` records whether the dict holds any further entry (including
modelled keys bound to null or to values outside the modelled shapes), which
only matters for Python dict truthiness. -/
structure Reply where
  rtype : Option String
  data : Option ReplyData
  content : Option String
  others : Bool
deriving DecidableEq, Repr

/-- Python truthiness of an optional string: present and non-empty. -/
def optTruthy (o : Option String) : Bool :=
  match o with
  | some s => decide (s ≠ "")
  | none => false

/-- Python truthiness of an optional section value: present non-empty dict. -/
def secTruthy (o : Option SectionVal) : Bool :=
  match o with
  | some v => decide (v ≠ [])
  | none => false

/-- Python truthiness of a decoded JSON object: it has at least one key. -/
def replyTruthy (r : Reply) : Bool :=
  r.rtype.isSome || r.data.isSome || r.content.isSome || r.others

/-- `response.get('data', {}).get('content')` is truthy. -/
def dataContentTruthy (r : Reply) : Bool :=
  match r.data with
  | some d => optTruthy d.content
  | none => false

/-- The Streamlit session state.  `thread_id` conflates Python `None` and
`''` into `""` (the code only ever tests its truthiness, identical for
both).  `pending` models the optional attribute
`st.session_state.pending_message`. -/
structure AppState where
  current_page : String
  job_title : String
  thread_id : String
  auth_token : String
  messages : List Msg
  scorecard_state : Scorecard
  is_loading : Bool
  pending : Option String
deriving DecidableEq, Repr

/-- The session state installed by the initialization block (lines 26-41). -/
def initState : AppState :=
  { current_page := "modal"
    job_title := ""
    thread_id := ""
    auth_token := ""
    messages := []
    scorecard_state := emptyScorecard
    is_loading := false
    pending := none }

/-- Parsed body of a successful history response: optional `messages` and
`state` entries. -/
structure HistoryBody where
  messages : Option (List Msg)
  state : Option Scorecard
deriving DecidableEq, Repr

/-- Outcome of the HTTP GET in `load_chat_history`: an HTTP response with a
status code and parsed body, or an exception raised during the request. -/
inductive FetchOutcome where
  | response (status : Nat) (body : HistoryBody)
  | exn
deriving DecidableEq, Repr

/-- One iteration's input to the WebSocket receive loop: a non-empty raw
frame that parses to the JSON object `f`, an empty raw frame (falsy, so
skipped), a read timeout (`WebSocketTimeoutException`), or any other
exception while reading or parsing. -/
inductive RecvEvent where
  | frame (f : Reply)
  | emptyRaw
  | err
  | timeout
deriving DecidableEq, Repr

/-! ## Operations (translated from src/app.py) -/

/-- `load_chat_history` (lines 43-61): on HTTP 200 overwrite `messages` and
`scorecard_state` from the body (defaulting to `[]` / `{}`) and return
`true`; on any other status or exception show an error, leave the state
untouched, and return `false`. -/
def load_chat_history (s : AppState) (o : FetchOutcome) : AppState × Bool :=
  match o with
  | .response status body =>
    if status = 200 then
      ({ s with messages := body.messages.getD []
                scorecard_state := body.state.getD emptyScorecard }, true)
    else (s, false)
  | .exn => (s, false)

/-- The receive loop of `send_websocket_message` (lines 93-114), with the
accumulating `responses` list made explicit.  A non-empty frame is parsed
and appended; the loop breaks after a frame whose `type` is `ai_message`,
after a frame whose `data.content` is truthy, on a read timeout, or on any
other read error. -/
def recvLoop : List RecvEvent → List Reply → List Reply
  | [], acc => acc
  | .timeout :: _, acc => acc
  | .err :: _, acc => acc
  | .emptyRaw :: rest, acc => recvLoop rest acc
  | .frame f :: rest, acc =>
    if f.rtype = some "ai_message" then acc ++ [f]
    else if dataContentTruthy f then acc ++ [f]
    else recvLoop rest (acc ++ [f])

/-- `send_websocket_message` (lines 63-131), given the connection/send
outcome (`connectOk`, false when `create_connection` or `send` raises) and
the sequence of read outcomes.  Returns `responses[-1]` when any response
was collected, else `None`. -/
def send_websocket_message (connectOk : Bool) (events : List RecvEvent) : Option Reply :=
  if connectOk then (recvLoop events []).getLast? else none

/-- Thread-id update (lines 285-287 and 304-306): replaced only by a truthy
inbound `data.thread_id`. -/
def updThread (cur : String) (inc : Option String) : String :=
  match inc with
  | some t => if t = "" then cur else t
  | none => cur

/-- Single-section update (`if response['data'].get(name): ... = value`):
a truthy inbound value replaces the entry, anything else keeps it. -/
def mergeSec (cur inc : Option SectionVal) : Option SectionVal :=
  match inc with
  | some v => if v = [] then cur else some v
  | none => cur

/-- The seven section updates of lines 289-302 / 309-322. -/
def mergeAll (sc : Scorecard) (d : ReplyData) : Scorecard :=
  { situation := mergeSec sc.situation d.situation
    mission := mergeSec sc.mission d.mission
    outcomes := mergeSec sc.outcomes d.outcomes
    competencies := mergeSec sc.competencies d.competencies
    culture := mergeSec sc.culture d.culture
    boss_style := mergeSec sc.boss_style d.boss_style
    requirements := mergeSec sc.requirements d.requirements }

/-- Reply reconciliation (lines 277-336 of `chat_page`): `if response:` then
either the new `ai_message`-with-`data` format (sentinel check, thread and
section updates, conditional assistant append) or the legacy fallback
(assistant append only). -/
def applyResponse (s : AppState) (resp : Option Reply) : AppState :=
  match resp with
  | none => s
  | some r =>
    if replyTruthy r then
      if r.rtype = some "ai_message" ∧ r.data.isSome then
        let d := r.data.getD emptyReplyData
        let content := d.content.getD "Response received"
        if pyStrip (pyLower content) = "connection established" then
          { s with thread_id := updThread s.thread_id d.thread_id
                   scorecard_state := mergeAll s.scorecard_state d }
        else
          { s with thread_id := updThread s.thread_id d.thread_id
                   scorecard_state := mergeAll s.scorecard_state d
                   messages := s.messages ++ [⟨"assistant", content⟩] }
      else
        { s with messages := s.messages ++ [⟨"assistant", r.content.getD "Response received"⟩] }
    else s

/-- Processing of a pending message (lines 260-342): optimistic user append,
WebSocket exchange (its result is the parameter `resp`), reconciliation,
then unconditional reset of `is_loading` and removal of `pending_message`. -/
def processPending (s : AppState) (p : String) (resp : Option Reply) : AppState :=
  let s1 := { s with messages := s.messages ++ [⟨"user", p⟩] }
  let s2 := applyResponse s1 resp
  { s2 with is_loading := false, pending := none }

/-- One script run of the send/processing part of `chat_page` (lines
234-342).  `clicked`/`input` are the form submission and text field;
`resp` is the exchange result used if a pending message is processed.  The
second component records whether `send_websocket_message` was invoked
during this run.  Each branch ends in `st.rerun()`, which aborts the rest
of the script, so the two blocks are mutually exclusive within one run. -/
def chatRun (s : AppState) (clicked : Bool) (input : String) (resp : Option Reply) :
    AppState × Bool :=
  if clicked = true ∧ input ≠ "" ∧ s.is_loading = false then
    ({ s with is_loading := true, pending := some (pyStrip input) }, false)
  else
    match s.pending with
    | some p => if s.is_loading then (processPending s p resp, true) else (s, false)
    | none => (s, false)

/-- The Back button of `chat_page` (lines 201-203): it only switches the
page; messages, draft, thread id and the rest of the session survive. -/
def backRun (s : AppState) : AppState :=
  { s with current_page := "modal" }

/-- The Continue button of `modal_page` (lines 178-194).  `auth`, `jt`,
`tid` are the three text inputs; `fetch` is the history-request outcome
consulted only when `tid` is non-empty.  The button is disabled while
`jt` is empty and the handler re-checks `if job_title`. -/
def modalRun (s : AppState) (clicked : Bool) (auth jt tid : String) (fetch : FetchOutcome) :
    AppState :=
  if clicked = true ∧ jt ≠ "" then
    let s1 := { s with job_title := jt
                       thread_id := if tid ≠ "" then tid else ""
                       auth_token := auth }
    if tid ≠ "" then
      match load_chat_history s1 fetch with
      | (s2, true) => { s2 with current_page := "chat" }
      | (s2, false) => s2
    else { s1 with current_page := "chat" }
  else s

/-! ## Spec-side descriptions

These definitions follow the specification's words (not the code) and are
compared with the embedded operations in the theorems below. -/

/-- A frame on which the spec says the receive loop stops: its `type`
equals `ai_message`, or its nested `data.content` is non-empty. -/
def stopFrame (f : Reply) : Bool :=
  decide (f.rtype = some "ai_message") || dataContentTruthy f

/-- Spec-side description of the receive loop: the frames observed before
the loop stops.  Reading stops at the first stop frame (inclusive), or at a
timeout or read error (exclusive). -/
def observedFrames : List RecvEvent → List Reply
  | [] => []
  | .timeout :: _ => []
  | .err :: _ => []
  | .emptyRaw :: rest => observedFrames rest
  | .frame f :: rest => if stopFrame f then [f] else f :: observedFrames rest

/-- Spec-side description of the exchange result: the last frame observed
before stopping, or `Empty` (`none`) when no frame was ever received. -/
def exchangeSpecResult (events : List RecvEvent) : Option Reply :=
  (observedFrames events).getLast?

/-- Claim-side description of one section update: a present non-empty
inbound value replaces the draft entry wholesale; an absent or falsy value
leaves it unchanged. -/
def sectionMerged (old inc new : Option SectionVal) : Prop :=
  match inc with
  | some v => if v = [] then new = old else new = some v
  | none => new = old

/-- `sectionMerged` for all seven section names at once. -/
def sectionsMerged (old : Scorecard) (d : ReplyData) (new : Scorecard) : Prop :=
  sectionMerged old.situation d.situation new.situation ∧
  sectionMerged old.mission d.mission new.mission ∧
  sectionMerged old.outcomes d.outcomes new.outcomes ∧
  sectionMerged old.competencies d.competencies new.competencies ∧
  sectionMerged old.culture d.culture new.culture ∧
  sectionMerged old.boss_style d.boss_style new.boss_style ∧
  sectionMerged old.requirements d.requirements new.requirements

/-- Claim-side description of the thread-id update: when the reply carries a
non-empty thread id, the stored one becomes it. -/
def threadUpdated (inc : Option String) (new : String) : Prop :=
  ∀ t, inc = some t → t ≠ "" → new = t

/-! ## Shared helper lemmas -/

theorem mergeSec_sectionMerged (old inc : Option SectionVal) :
    sectionMerged old inc (mergeSec old inc) := by
  cases inc with
  | none => simp [sectionMerged, mergeSec]
  | some v =>
    by_cases hv : v = [] <;> simp [sectionMerged, mergeSec, hv]

theorem mergeAll_sectionsMerged (sc : Scorecard) (d : ReplyData) :
    sectionsMerged sc d (mergeAll sc d) :=
  ⟨mergeSec_sectionMerged _ _, mergeSec_sectionMerged _ _, mergeSec_sectionMerged _ _,
   mergeSec_sectionMerged _ _, mergeSec_sectionMerged _ _, mergeSec_sectionMerged _ _,
   mergeSec_sectionMerged _ _⟩

theorem updThread_threadUpdated (old : String) (inc : Option String) :
    threadUpdated inc (updThread old inc) := by
  intro t ht htne
  simp [updThread, ht, htne]

/-- Both branches of the new-format arm of the reconciler perform the same
thread and section updates; the non-sentinel branch additionally appends the
assistant message. -/
theorem applyResponse_aiMessage (s : AppState) (r : Reply) (d : ReplyData)
    (hr : r.rtype = some "ai_message") (hd : r.data = some d) :
    applyResponse s (some r) =
      if pyStrip (pyLower (d.content.getD "Response received")) = "connection established" then
        { s with thread_id := updThread s.thread_id d.thread_id
                 scorecard_state := mergeAll s.scorecard_state d }
      else
        { s with thread_id := updThread s.thread_id d.thread_id
                 scorecard_state := mergeAll s.scorecard_state d
                 messages := s.messages ++ [⟨"assistant", d.content.getD "Response received"⟩] } := by
  obtain ⟨rt, rd, rc, ro⟩ := r
  simp only [Reply.rtype] at hr
  simp only [Reply.data] at hd
  subst hr
  subst hd
  simp only [applyResponse, replyTruthy, Option.isSome_some, Bool.true_or, Bool.or_self,
    if_true]
  simp

/-- The accumulator-passing receive loop collects exactly the frames the
spec describes as observed before stopping. -/
theorem recvLoop_eq_observed (events : List RecvEvent) (acc : List Reply) :
    recvLoop events acc = acc ++ observedFrames events := by
  induction events generalizing acc with
  | nil => simp [recvLoop, observedFrames]
  | cons e rest ih =>
    cases e with
    | timeout => simp [recvLoop, observedFrames]
    | err => simp [recvLoop, observedFrames]
    | emptyRaw =>
      rw [show recvLoop (RecvEvent.emptyRaw :: rest) acc = recvLoop rest acc from rfl,
        show observedFrames (RecvEvent.emptyRaw :: rest) = observedFrames rest from rfl]
      exact ih acc
    | frame f =>
      by_cases h1 : f.rtype = some "ai_message"
      · simp [recvLoop, observedFrames, stopFrame, h1]
      · by_cases h2 : dataContentTruthy f = true
        · simp [recvLoop, observedFrames, stopFrame, h1, h2]
        · simp only [Bool.not_eq_true] at h2
          simp [recvLoop, observedFrames, stopFrame, h1, h2, ih]

/-! ## The claims -/

/-- Claim C3: the WebSocket receive loop stops as soon as a frame with type
`ai_message` is read, or a frame whose nested `data.content` is non-empty is
read, or a per-read timeout elapses, or a read error occurs; and
`send_websocket_message` returns the last frame observed before stopping, or
`None` when no frame was ever received.  Stated as an equivalence between
the embedded adapter and the spec-side description `exchangeSpecResult`. -/
theorem recv_loop_returns_last_observed (events : List RecvEvent) :
    send_websocket_message true events = exchangeSpecResult events := by
  rw [send_websocket_message, if_pos rfl, exchangeSpecResult, recvLoop_eq_observed,
    List.nil_append]

/-- Claim C1: an inbound `ai_message` reply whose `data.content`, trimmed
and lower-cased, equals the sentinel `"connection established"` updates the
thread id (when the reply carries a non-empty one) and merges present
section fields into the draft, but appends no message to the log. -/
theorem sentinel_reply_updates_without_append (s : AppState) (r : Reply) (d : ReplyData)
    (c : String) (hr : r.rtype = some "ai_message") (hd : r.data = some d)
    (hc : d.content = some c)
    (hsent : pyLower (pyStrip c) = "connection established") :
    (applyResponse s (some r)).messages = s.messages ∧
    threadUpdated d.thread_id (applyResponse s (some r)).thread_id ∧
    sectionsMerged s.scorecard_state d (applyResponse s (some r)).scorecard_state := by
  have hsent' : pyStrip (pyLower c) = "connection established" := by
    rw [pyStrip_pyLower_comm]; exact hsent
  rw [applyResponse_aiMessage s r d hr hd, hc]
  simp only [Option.getD_some, hsent', if_pos]
  exact ⟨trivial, updThread_threadUpdated _ _, mergeAll_sectionsMerged _ _⟩

/-- Claim C1, witness: a concrete sentinel reply (content
`" Connection ESTABLISHED "`, thread id `"t-17"`, one situation field)
leaves the message log untouched while updating thread id and draft. -/
theorem sentinel_reply_updates_without_append_witness :
    pyLower (pyStrip " Connection ESTABLISHED ") = "connection established" ∧
    ((applyResponse initState
        (some ⟨some "ai_message",
              some ⟨some " Connection ESTABLISHED ", some "t-17",
                    some [("team_size", "5")], none, none, none, none, none, none⟩,
              none, false⟩)).messages = initState.messages ∧
     threadUpdated (some "t-17")
       (applyResponse initState
         (some ⟨some "ai_message",
               some ⟨some " Connection ESTABLISHED ", some "t-17",
                     some [("team_size", "5")], none, none, none, none, none, none⟩,
               none, false⟩)).thread_id ∧
     sectionsMerged initState.scorecard_state
       ⟨some " Connection ESTABLISHED ", some "t-17",
        some [("team_size", "5")], none, none, none, none, none, none⟩
       (applyResponse initState
         (some ⟨some "ai_message",
               some ⟨some " Connection ESTABLISHED ", some "t-17",
                     some [("team_size", "5")], none, none, none, none, none, none⟩,
               none, false⟩)).scorecard_state) :=
  ⟨by decide,
   sentinel_reply_updates_without_append initState _ _ _ rfl rfl rfl (by decide)⟩

/-- Claim C8: an inbound `ai_message` reply whose content is not the
sentinel appends exactly one assistant message with exactly that content, in
addition to the thread-id and section updates. -/
theorem normal_reply_appends_one_assistant (s : AppState) (r : Reply) (d : ReplyData)
    (c : String) (hr : r.rtype = some "ai_message") (hd : r.data = some d)
    (hc : d.content = some c)
    (hns : pyLower (pyStrip c) ≠ "connection established") :
    (applyResponse s (some r)).messages = s.messages ++ [⟨"assistant", c⟩] ∧
    threadUpdated d.thread_id (applyResponse s (some r)).thread_id ∧
    sectionsMerged s.scorecard_state d (applyResponse s (some r)).scorecard_state := by
  have hns' : ¬ pyStrip (pyLower c) = "connection established" := by
    rw [pyStrip_pyLower_comm]; exact hns
  rw [applyResponse_aiMessage s r d hr hd, hc]
  simp only [Option.getD_some, hns', if_false]
  exact ⟨trivial, updThread_threadUpdated _ _, mergeAll_sectionsMerged _ _⟩

/-- Claim C8, witness: the spec's scenario reply (content
`"Great, tell me about outcomes"`, thread id `"abc123"`, one situation
field) appends exactly that assistant message. -/
theorem normal_reply_appends_one_assistant_witness :
    pyLower (pyStrip "Great, tell me about outcomes") ≠ "connection established" ∧
    ((applyResponse initState
        (some ⟨some "ai_message",
              some ⟨some "Great, tell me about outcomes", some "abc123",
                    some [("team_size", "5")], none, none, none, none, none, none⟩,
              none, false⟩)).messages =
       initState.messages ++ [⟨"assistant", "Great, tell me about outcomes"⟩] ∧
     threadUpdated (some "abc123")
       (applyResponse initState
         (some ⟨some "ai_message",
               some ⟨some "Great, tell me about outcomes", some "abc123",
                     some [("team_size", "5")], none, none, none, none, none, none⟩,
               none, false⟩)).thread_id ∧
     sectionsMerged initState.scorecard_state
       ⟨some "Great, tell me about outcomes", some "abc123",
        some [("team_size", "5")], none, none, none, none, none, none⟩
       (applyResponse initState
         (some ⟨some "ai_message",
               some ⟨some "Great, tell me about outcomes", some "abc123",
                     some [("team_size", "5")], none, none, none, none, none, none⟩,
               none, false⟩)).scorecard_state) :=
  ⟨by decide,
   normal_reply_appends_one_assistant initState _ _ _ rfl rfl rfl (by decide)⟩

/-- Claim C4: for each of the seven section names, an inbound `ai_message`
reply carrying a non-empty value for that section replaces the draft entry
wholesale, and an absent or falsy value leaves it unchanged — whether or not
the content is the sentinel. -/
theorem seven_sections_merge_policy (s : AppState) (r : Reply) (d : ReplyData)
    (hr : r.rtype = some "ai_message") (hd : r.data = some d) :
    sectionsMerged s.scorecard_state d (applyResponse s (some r)).scorecard_state := by
  rw [applyResponse_aiMessage s r d hr hd]
  by_cases hsent :
      pyStrip (pyLower (d.content.getD "Response received")) = "connection established"
  · simp only [hsent, if_pos]
    exact mergeAll_sectionsMerged _ _
  · simp only [hsent, if_false]
    exact mergeAll_sectionsMerged _ _

/-- Claim C4, witness: a reply with a non-empty `mission`, an explicitly
empty `boss_style` and the other five sections absent replaces exactly the
`mission` entry of a draft that already has `situation` and `culture`. -/
theorem seven_sections_merge_policy_witness :
    sectionsMerged
      { emptyScorecard with situation := some [("a", "1")], culture := some [("c", "2")] }
      ⟨some "ok", none, none, some [("m", "3")], none, none, none, some [], none⟩
      ((applyResponse
          { initState with scorecard_state :=
              { emptyScorecard with situation := some [("a", "1")],
                                    culture := some [("c", "2")] } }
          (some ⟨some "ai_message",
                some ⟨some "ok", none, none, some [("m", "3")], none, none, none,
                      some [], none⟩,
                none, false⟩)).scorecard_state) :=
  seven_sections_merge_policy
    { initState with scorecard_state :=
        { emptyScorecard with situation := some [("a", "1")], culture := some [("c", "2")] } }
    _ _ rfl rfl

/-- Whatever the exchange produced, reconciliation only ever appends to the
message log; it never removes or rewrites existing entries. -/
theorem applyResponse_messages_extend (s : AppState) (resp : Option Reply) :
    ∃ tail, (applyResponse s resp).messages = s.messages ++ tail := by
  cases resp with
  | none => exact ⟨[], (List.append_nil _).symm⟩
  | some r =>
    simp only [applyResponse]
    split
    · split
      · split
        · exact ⟨[], (List.append_nil _).symm⟩
        · exact ⟨_, rfl⟩
      · exact ⟨_, rfl⟩
    · exact ⟨[], (List.append_nil _).symm⟩

/-- A chat session holding one message, one draft section and a thread id,
as left behind when the user presses Back. -/
def priorChatState : AppState :=
  { current_page := "chat"
    job_title := "Old Role"
    thread_id := "t-old"
    auth_token := ""
    messages := [⟨"assistant", "hello"⟩]
    scorecard_state := { emptyScorecard with situation := some [("a", "1")] }
    is_loading := false
    pending := none }

/-- Claim C2, counterexample: after Back from a chat session holding one
assistant message, submitting a fresh create (jobTitle "Senior Engineer",
no thread id) reaches the Chat state with the old message still in the log
and the old draft still present — not an empty log and empty draft as the
claim states. -/
theorem create_after_back_keeps_old_log :
    (modalRun (backRun priorChatState) true "" "Senior Engineer" ""
        FetchOutcome.exn).current_page = "chat" ∧
    (modalRun (backRun priorChatState) true "" "Senior Engineer" ""
        FetchOutcome.exn).messages = [⟨"assistant", "hello"⟩] ∧
    (modalRun (backRun priorChatState) true "" "Senior Engineer" ""
        FetchOutcome.exn).messages ≠ [] ∧
    (modalRun (backRun priorChatState) true "" "Senior Engineer" ""
        FetchOutcome.exn).scorecard_state ≠ emptyScorecard := by
  refine ⟨rfl, rfl, by decide, by decide⟩

/-- Claim C2, amended: a submit from the Create page with a non-empty
jobTitle and no thread id transitions to Chat with the thread id cleared,
but carries the existing message log and scorecard draft over unchanged;
the back action does not discard them, so they are empty only when the
store was already empty. -/
theorem create_submit_keeps_store (s : AppState) (auth jt : String) (fetch : FetchOutcome)
    (hjt : jt ≠ "") :
    (modalRun s true auth jt "" fetch).current_page = "chat" ∧
    (modalRun s true auth jt "" fetch).messages = s.messages ∧
    (modalRun s true auth jt "" fetch).scorecard_state = s.scorecard_state ∧
    (modalRun s true auth jt "" fetch).thread_id = "" ∧
    (backRun s).messages = s.messages ∧
    (backRun s).scorecard_state = s.scorecard_state := by
  have h : modalRun s true auth jt "" fetch =
      { s with job_title := jt, thread_id := "", auth_token := auth,
               current_page := "chat" } := by
    simp [modalRun, hjt]
  rw [h]
  exact ⟨rfl, rfl, rfl, rfl, rfl, rfl⟩

/-- Claim C2 (amended), witness: the submit after Back from
`priorChatState` keeps that session's log and draft. -/
theorem create_submit_keeps_store_witness :
    ("Senior Engineer" ≠ "") ∧
    ((modalRun priorChatState true "" "Senior Engineer" ""
        FetchOutcome.exn).current_page = "chat" ∧
     (modalRun priorChatState true "" "Senior Engineer" ""
        FetchOutcome.exn).messages = priorChatState.messages ∧
     (modalRun priorChatState true "" "Senior Engineer" ""
        FetchOutcome.exn).scorecard_state = priorChatState.scorecard_state ∧
     (modalRun priorChatState true "" "Senior Engineer" ""
        FetchOutcome.exn).thread_id = "" ∧
     (backRun priorChatState).messages = priorChatState.messages ∧
     (backRun priorChatState).scorecard_state = priorChatState.scorecard_state) :=
  ⟨by decide,
   create_submit_keeps_store priorChatState "" "Senior Engineer" FetchOutcome.exn (by decide)⟩

/-- Claim C5: while the loading flag is true the send guard rejects any
further send: one chat run behaves exactly as if no send had been attempted,
and the exchange is only invoked for the already-pending message. -/
theorem loading_blocks_second_send (s : AppState) (clicked : Bool) (input : String)
    (resp : Option Reply) (h : s.is_loading = true) :
    chatRun s clicked input resp = chatRun s false "" resp ∧
    ((chatRun s clicked input resp).2 = true → s.pending.isSome = true) := by
  constructor
  · simp [chatRun, h]
  · intro hinv
    cases hp : s.pending with
    | none => simp [chatRun, h, hp] at hinv
    | some p => rfl

/-- A chat session with an exchange already in flight. -/
def loadingState : AppState :=
  { initState with is_loading := true, pending := some "draft" }

/-- Claim C5, witness: with an in-flight exchange, a click with input
`"hi"` changes nothing relative to no click at all. -/
theorem loading_blocks_second_send_witness :
    loadingState.is_loading = true ∧
    (chatRun loadingState true "hi" none = chatRun loadingState false "" none ∧
     ((chatRun loadingState true "hi" none).2 = true → loadingState.pending.isSome = true)) :=
  ⟨rfl, loading_blocks_second_send loadingState true "hi" none rfl⟩

/-- Claim C6: a failing history fetch (any non-200 status or any exception)
leaves the UI on its current page and the conversation store (messages and
scorecard draft) unmodified — the create-to-chat transition is
all-or-nothing. -/
theorem history_failure_blocks_transition (s : AppState) (auth jt tid : String)
    (fetch : FetchOutcome) (hjt : jt ≠ "") (htid : tid ≠ "")
    (hfail : ∀ b, fetch ≠ FetchOutcome.response 200 b) :
    (modalRun s true auth jt tid fetch).current_page = s.current_page ∧
    (modalRun s true auth jt tid fetch).messages = s.messages ∧
    (modalRun s true auth jt tid fetch).scorecard_state = s.scorecard_state := by
  have hload : load_chat_history
      { s with job_title := jt, thread_id := tid, auth_token := auth } fetch =
      ({ s with job_title := jt, thread_id := tid, auth_token := auth }, false) := by
    cases fetch with
    | exn => rfl
    | response st b =>
      have hst : ¬ st = 200 := fun h200 => hfail b (by rw [h200])
      simp [load_chat_history, hst]
  have h : modalRun s true auth jt tid fetch =
      { s with job_title := jt, thread_id := tid, auth_token := auth } := by
    have hcond : true = true ∧ jt ≠ "" := ⟨rfl, hjt⟩
    simp only [modalRun, if_pos hcond, if_pos htid]
    rw [hload]
    rw [if_pos (⟨trivial, hjt⟩ : True ∧ jt ≠ "")]
  rw [h]
  exact ⟨rfl, rfl, rfl⟩

/-- Claim C6, witness: an HTTP 404 on the history fetch keeps `initState`'s
page and store intact. -/
theorem history_failure_blocks_transition_witness :
    ("Senior Engineer" ≠ "") ∧ ("t-404" ≠ "") ∧
    (∀ b, FetchOutcome.response 404 b ≠ FetchOutcome.response 200 b) ∧
    ((modalRun initState true "" "Senior Engineer" "t-404"
        (FetchOutcome.response 404 ⟨none, none⟩)).current_page = initState.current_page ∧
     (modalRun initState true "" "Senior Engineer" "t-404"
        (FetchOutcome.response 404 ⟨none, none⟩)).messages = initState.messages ∧
     (modalRun initState true "" "Senior Engineer" "t-404"
        (FetchOutcome.response 404 ⟨none, none⟩)).scorecard_state =
       initState.scorecard_state) :=
  ⟨by decide, by decide, fun b h => by simp at h,
   history_failure_blocks_transition initState "" "Senior Engineer" "t-404"
     (FetchOutcome.response 404 ⟨none, none⟩) (by decide) (by decide)
     (fun b h => by simp at h)⟩

/-- Claim C7: a send of non-empty input while not loading first (run one)
only appends nothing and invokes no exchange — it records the pending
message — and then (run two) appends the user's message before the
exchange result is consulted; on every exchange outcome the loading flag
ends false and the optimistic user message is still in the log. -/
theorem optimistic_append_and_loading_reset (s : AppState) (input : String)
    (resp : Option Reply) (hload : s.is_loading = false) (hin : input ≠ "") :
    (chatRun s true input resp).2 = false ∧
    (chatRun s true input resp).1.messages = s.messages ∧
    (chatRun (chatRun s true input resp).1 false "" resp).2 = true ∧
    (chatRun (chatRun s true input resp).1 false "" resp).1.is_loading = false ∧
    ∃ rest, (chatRun (chatRun s true input resp).1 false "" resp).1.messages =
      s.messages ++ ⟨"user", pyStrip input⟩ :: rest := by
  have h1 : chatRun s true input resp =
      ({ s with is_loading := true, pending := some (pyStrip input) }, false) := by
    simp [chatRun, hin, hload]
  have h2 : chatRun { s with is_loading := true, pending := some (pyStrip input) }
        false "" resp =
      (processPending { s with is_loading := true, pending := some (pyStrip input) }
        (pyStrip input) resp, true) := by
    simp [chatRun]
  rw [h1]
  simp only [h2]
  refine ⟨by trivial, by trivial, by trivial, by trivial, ?_⟩
  obtain ⟨tail, htail⟩ := applyResponse_messages_extend
    { s with is_loading := true, pending := some (pyStrip input),
             messages := s.messages ++ [⟨"user", pyStrip input⟩] } resp
  refine ⟨tail, ?_⟩
  show (applyResponse
    { s with is_loading := true, pending := some (pyStrip input),
             messages := s.messages ++ [⟨"user", pyStrip input⟩] } resp).messages =
    s.messages ++ ⟨"user", pyStrip input⟩ :: tail
  rw [htail]
  simp

/-- Claim C7, witness: sending `"I lead a team of 5"` from a fresh chat
session with a failed exchange (`None`) still appends the user message and
resets loading. -/
theorem optimistic_append_and_loading_reset_witness :
    initState.is_loading = false ∧ ("I lead a team of 5" ≠ "") ∧
    ((chatRun initState true "I lead a team of 5" none).2 = false ∧
     (chatRun initState true "I lead a team of 5" none).1.messages = initState.messages ∧
     (chatRun (chatRun initState true "I lead a team of 5" none).1 false "" none).2 = true ∧
     (chatRun (chatRun initState true "I lead a team of 5" none).1 false ""
        none).1.is_loading = false ∧
     ∃ rest, (chatRun (chatRun initState true "I lead a team of 5" none).1 false ""
        none).1.messages =
       initState.messages ++ ⟨"user", pyStrip "I lead a team of 5"⟩ :: rest) :=
  ⟨rfl, by decide,
   optimistic_append_and_loading_reset initState "I lead a team of 5" none rfl (by decide)⟩

/-- The legacy fallback arm of the reconciler (lines 329-336): for a truthy
reply without the `ai_message`-with-`data` envelope, only an assistant
message is appended. -/
theorem applyResponse_legacy (s : AppState) (r : Reply)
    (htr : replyTruthy r = true)
    (henv : ¬ (r.rtype = some "ai_message" ∧ r.data.isSome = true)) :
    applyResponse s (some r) =
      { s with messages :=
          s.messages ++ [⟨"assistant", r.content.getD "Response received"⟩] } := by
  simp only [applyResponse, if_pos htr, if_neg henv]

/-- A falsy reply (such as the empty JSON object) fails the `if response:`
guard and changes nothing. -/
theorem applyResponse_falsy (s : AppState) (r : Reply)
    (htr : replyTruthy r = false) : applyResponse s (some r) = s := by
  simp only [applyResponse]
  rw [if_neg (by simp [htr])]

theorem updThread_cases (cur : String) (inc : Option String) :
    updThread cur inc = cur ∨ ∃ t, inc = some t ∧ t ≠ "" ∧ updThread cur inc = t := by
  cases inc with
  | none => exact Or.inl rfl
  | some t =>
    by_cases ht : t = ""
    · exact Or.inl (by simp [updThread, ht])
    · exact Or.inr ⟨t, rfl, ht, by simp [updThread, ht]⟩

theorem updThread_untruthy (cur : String) (inc : Option String)
    (h : optTruthy inc = false) : updThread cur inc = cur := by
  cases inc with
  | none => rfl
  | some t =>
    have ht : t = "" := by simpa [optTruthy] using h
    simp [updThread, ht]

/-- Thread-id behaviour of reconciliation: it is preserved, or replaced by
a non-empty thread id carried in the reply's `data`; it is preserved
whenever the carried thread id is absent or empty, and whenever the reply
has no `data`. -/
theorem applyResponse_thread_cases (s : AppState) (resp : Option Reply) :
    ((applyResponse s resp).thread_id = s.thread_id ∨
      ∃ r d t, resp = some r ∧ r.data = some d ∧ d.thread_id = some t ∧ t ≠ "" ∧
        (applyResponse s resp).thread_id = t) ∧
    (∀ r d, resp = some r → r.data = some d → optTruthy d.thread_id = false →
      (applyResponse s resp).thread_id = s.thread_id) ∧
    (∀ r, resp = some r → r.data = none →
      (applyResponse s resp).thread_id = s.thread_id) := by
  cases resp with
  | none =>
    refine ⟨Or.inl rfl, ?_, ?_⟩
    · intro r d h; cases h
    · intro r h; cases h
  | some r =>
    by_cases htr : replyTruthy r = true
    · by_cases henv : r.rtype = some "ai_message" ∧ r.data.isSome = true
      · obtain ⟨hty, hds⟩ := henv
        obtain ⟨d, hd⟩ := Option.isSome_iff_exists.mp hds
        have hth : (applyResponse s (some r)).thread_id =
            updThread s.thread_id d.thread_id := by
          rw [applyResponse_aiMessage s r d hty hd]
          by_cases hsent : pyStrip (pyLower (d.content.getD "Response received")) =
              "connection established"
          · rw [if_pos hsent]
          · rw [if_neg hsent]
        refine ⟨?_, ?_, ?_⟩
        · rcases updThread_cases s.thread_id d.thread_id with hc | ⟨t, hti, htne, hupd⟩
          · exact Or.inl (hth.trans hc)
          · exact Or.inr ⟨r, d, t, rfl, hd, hti, htne, hth.trans hupd⟩
        · intro r' d' hr' hd' hunt
          injection hr' with hr''
          subst hr''
          rw [hd] at hd'
          injection hd' with hd''
          subst hd''
          exact hth.trans (updThread_untruthy _ _ hunt)
        · intro r' hr' hnone
          injection hr' with hr''
          subst hr''
          rw [hd] at hnone
          cases hnone
      · have hth : (applyResponse s (some r)).thread_id = s.thread_id := by
          rw [applyResponse_legacy s r htr henv]
        exact ⟨Or.inl hth, fun _ _ _ _ _ => hth, fun _ _ _ => hth⟩
    · have hth : (applyResponse s (some r)).thread_id = s.thread_id := by
        rw [applyResponse_falsy s r (by simpa using htr)]
      exact ⟨Or.inl hth, fun _ _ _ _ _ => hth, fun _ _ _ => hth⟩

/-- Claim C9: across the chat-session operations (the Back action and a
chat run with any click, input and exchange result), the stored thread id
is either left unchanged or replaced by a non-empty thread id carried in
the backend reply; a reply carrying no thread id (or an empty one, or no
`data` at all) leaves it unchanged. -/
theorem thread_id_only_backend_updates (s : AppState) (clicked : Bool) (input : String)
    (resp : Option Reply) :
    (backRun s).thread_id = s.thread_id ∧
    ((chatRun s clicked input resp).1.thread_id = s.thread_id ∨
      ∃ r d t, resp = some r ∧ r.data = some d ∧ d.thread_id = some t ∧ t ≠ "" ∧
        (chatRun s clicked input resp).1.thread_id = t) ∧
    (∀ r d, resp = some r → r.data = some d → optTruthy d.thread_id = false →
      (chatRun s clicked input resp).1.thread_id = s.thread_id) ∧
    (∀ r, resp = some r → r.data = none →
      (chatRun s clicked input resp).1.thread_id = s.thread_id) := by
  refine ⟨rfl, ?_⟩
  by_cases hg : clicked = true ∧ input ≠ "" ∧ s.is_loading = false
  · have hcr : chatRun s clicked input resp =
        ({ s with is_loading := true, pending := some (pyStrip input) }, false) := by
      simp only [chatRun, if_pos hg]
    rw [hcr]
    exact ⟨Or.inl rfl, fun _ _ _ _ _ => rfl, fun _ _ _ => rfl⟩
  · cases hp : s.pending with
    | none =>
      have hcr : chatRun s clicked input resp = (s, false) := by
        simp only [chatRun, if_neg hg, hp]
      rw [hcr]
      exact ⟨Or.inl rfl, fun _ _ _ _ _ => rfl, fun _ _ _ => rfl⟩
    | some p =>
      by_cases hl : s.is_loading = true
      · have hcr : chatRun s clicked input resp = (processPending s p resp, true) := by
          simp only [chatRun, if_neg hg, hp, if_pos hl]
        rw [hcr]
        exact applyResponse_thread_cases
          { s with messages := s.messages ++ [⟨"user", p⟩] } resp
      · have hcr : chatRun s clicked input resp = (s, false) := by
          simp only [chatRun, if_neg hg, hp, if_neg hl]
        rw [hcr]
        exact ⟨Or.inl rfl, fun _ _ _ _ _ => rfl, fun _ _ _ => rfl⟩

/-- A reply carrying a non-empty thread id `"abc123"`. -/
def threadedReply : Reply :=
  ⟨some "ai_message",
   some ⟨some "hi", some "abc123", none, none, none, none, none, none, none⟩,
   none, false⟩

/-- Claim C9, witness: processing the pending message of `loadingState`
against `threadedReply` obeys the thread-id update discipline. -/
theorem thread_id_only_backend_updates_witness :
    (backRun loadingState).thread_id = loadingState.thread_id ∧
    ((chatRun loadingState false "" (some threadedReply)).1.thread_id =
        loadingState.thread_id ∨
      ∃ r d t, some threadedReply = some r ∧ r.data = some d ∧ d.thread_id = some t ∧
        t ≠ "" ∧ (chatRun loadingState false "" (some threadedReply)).1.thread_id = t) ∧
    (∀ r d, some threadedReply = some r → r.data = some d →
      optTruthy d.thread_id = false →
      (chatRun loadingState false "" (some threadedReply)).1.thread_id =
        loadingState.thread_id) ∧
    (∀ r, some threadedReply = some r → r.data = none →
      (chatRun loadingState false "" (some threadedReply)).1.thread_id =
        loadingState.thread_id) :=
  thread_id_only_backend_updates loadingState false "" (some threadedReply)

/-- Claim C10, counterexample: the empty JSON object `{}` is a non-None
reply without the `ai_message` envelope, yet processing it appends nothing:
`if response:` treats the falsy dict exactly like `None`, so the whole
state — message log included — is unchanged. -/
theorem empty_object_reply_no_append :
    (some (⟨none, none, none, false⟩ : Reply)).isSome = true ∧
    (⟨none, none, none, false⟩ : Reply).rtype ≠ some "ai_message" ∧
    applyResponse initState (some ⟨none, none, none, false⟩) = initState ∧
    (applyResponse initState (some ⟨none, none, none, false⟩)).messages = [] := by
  refine ⟨rfl, by decide,
    applyResponse_falsy initState ⟨none, none, none, false⟩ rfl, ?_⟩
  rw [applyResponse_falsy initState ⟨none, none, none, false⟩ rfl]
  rfl

/-- Claim C10, amended: for every TRUTHY (non-empty JSON object) reply, if
it lacks the `ai_message`-with-`data` envelope an assistant message is
appended with the top-level content or the placeholder
`"Response received"`; if it is an `ai_message` whose `data` has no
content field, the placeholder `"Response received"` is appended.  A falsy
non-None reply such as `{}` is treated as a no-op, like `None`. -/
theorem truthy_reply_fallback_append (s : AppState) (r : Reply)
    (htr : replyTruthy r = true) :
    ((¬ (r.rtype = some "ai_message" ∧ r.data.isSome = true)) →
       (applyResponse s (some r)).messages =
         s.messages ++ [⟨"assistant", r.content.getD "Response received"⟩]) ∧
    (∀ d, r.rtype = some "ai_message" → r.data = some d → d.content = none →
       (applyResponse s (some r)).messages =
         s.messages ++ [⟨"assistant", "Response received"⟩]) := by
  constructor
  · intro henv
    rw [applyResponse_legacy s r htr henv]
  · intro d hty hd hc
    rw [applyResponse_aiMessage s r d hty hd, hc]
    have hns : ¬ pyStrip (pyLower ((none : Option String).getD "Response received")) =
        "connection established" := by decide
    rw [if_neg hns]
    rfl

/-- An `ai_message` reply whose `data` object carries no content field. -/
def contentlessAiReply : Reply :=
  ⟨some "ai_message", some emptyReplyData, none, false⟩

/-- Claim C10 (amended), witness: an `ai_message` with an empty `data`
object gets the placeholder `"Response received"` appended. -/
theorem truthy_reply_fallback_append_witness :
    replyTruthy contentlessAiReply = true ∧
    (((¬ (contentlessAiReply.rtype = some "ai_message" ∧
          contentlessAiReply.data.isSome = true)) →
       (applyResponse initState (some contentlessAiReply)).messages =
         initState.messages ++
           [⟨"assistant", contentlessAiReply.content.getD "Response received"⟩]) ∧
     (∀ d, contentlessAiReply.rtype = some "ai_message" →
        contentlessAiReply.data = some d → d.content = none →
        (applyResponse initState (some contentlessAiReply)).messages =
          initState.messages ++ [⟨"assistant", "Response received"⟩])) :=
  ⟨rfl, truthy_reply_fallback_append initState contentlessAiReply rfl⟩

end ScorecardApp
